import Mathlib

/-!
Verification of the OTP authentication service (Go, Gin, Twilio).

Shallow embedding of the two source files:
* `backend` package (`auth.go`, second part): `MemoryOTPCache` with
  `SetOTP`, `GetOTP`, `DeleteOTP` and the periodic `cleanup` sweep.
* `main` package: the HTTP handlers `generateOTP`, `validateOTP` and the
  code generator `generateSecureOTP`.

Modelling conventions:
* Go `time.Time` is modelled as `Nat` (an absolute instant); Go's
  `t1.After t2` is `t1 > t2` (strict).
* The Go map `map[string]otpEntry` is modelled as the function
  `String → Option otpEntry`; `delete` sets the key to `none`.
* Go's `error` results that are always `nil` or one of the two sentinel
  errors are modelled as `Option OTPError` / `Except OTPError`.
* `crypto/rand.Read` filling a 2-byte buffer is modelled by an
  `Option (Nat × Nat)` argument: `some (b0, b1)` for a successful read of
  bytes `b0 b1`, `none` when the crypto source fails; the `math/rand`
  fallback value `Intn 9000` is an explicit argument `fallbackVal`.
-/

/-- The two sentinel errors of the `backend` package:
`ErrOTPExpired = errors.New("OTP expired")`,
`ErrOTPNotFound = errors.New("OTP not found")`. -/
inductive OTPError where
  | Expired
  | NotFound
deriving DecidableEq, Repr

/-- `type otpEntry struct { otp string; expiresAt time.Time }`. -/
structure otpEntry where
  otp : String
  expiresAt : Nat
deriving DecidableEq, Repr

/-- The `store map[string]otpEntry` field of `MemoryOTPCache`. -/
def Store : Type := String → Option otpEntry

/-- The empty map created by `NewMemoryOTPCache`. -/
def emptyStore : Store := fun _ => none

/-- `otpExpiration = 5 * time.Minute`, in nanoseconds (Go `Duration`). -/
def otpExpiration : Nat := 5 * 60 * 1000000000

/-- `MemoryOTPCache.SetOTP`: stores the OTP with
`expiresAt = time.Now().Add(otpExpiration)` and returns `nil`.
The pair is (updated store, returned error). -/
def SetOTP (s : Store) (now : Nat) (phone otp : String) :
    Store × Option OTPError :=
  (fun q => if q = phone then some ⟨otp, now + otpExpiration⟩ else s q, none)

/-- `MemoryOTPCache.GetOTP`: absent keys fail with `ErrOTPNotFound`;
entries with `time.Now().After(entry.expiresAt)` are deleted and fail
with `ErrOTPExpired`; otherwise the stored code is returned. The pair is
(store after the call, result). -/
def GetOTP (s : Store) (now : Nat) (phone : String) :
    Store × Except OTPError String :=
  match s phone with
  | none => (s, Except.error OTPError.NotFound)
  | some entry =>
      if now > entry.expiresAt then
        (fun q => if q = phone then none else s q, Except.error OTPError.Expired)
      else
        (s, Except.ok entry.otp)

/-- `MemoryOTPCache.DeleteOTP`: removes the key and returns `nil`. -/
def DeleteOTP (s : Store) (phone : String) : Store × Option OTPError :=
  (fun q => if q = phone then none else s q, none)

/-- One pass of the `cleanup` goroutine's sweep: for every key, entries
with `now.After(entry.expiresAt)` are deleted, the rest are kept. -/
def cleanupPass (s : Store) (now : Nat) : Store :=
  fun phone =>
    match s phone with
    | none => none
    | some entry => if now > entry.expiresAt then none else some entry

/-- The five outcomes of the `validateOTP` handler's response dispatch. -/
inductive ValidateOutcome where
  | Valid
  | Incorrect
  | NotFound
  | Expired
  | InternalError
deriving DecidableEq, Repr

/-- An HTTP response of `validateOTP`: status code plus the JSON body
`gin.H{"valid": ..., "error": ...}` (no `error` field on success). -/
structure Response where
  status : Nat
  valid : Bool
  error : Option String
deriving DecidableEq, Repr

/-- The `c.JSON` call `validateOTP` makes for each outcome:
`200 {"valid": true}` on success, `200 {"valid": false, "error": "OTP is
incorrect"}` on mismatch, `404 …"OTP not found"`, `400 …"OTP has
expired"`, `500 …"Internal server error"` on the switch's default. -/
def responseFor : ValidateOutcome → Response
  | ValidateOutcome.Valid => ⟨200, true, none⟩
  | ValidateOutcome.Incorrect => ⟨200, false, some "OTP is incorrect"⟩
  | ValidateOutcome.NotFound => ⟨404, false, some "OTP not found"⟩
  | ValidateOutcome.Expired => ⟨400, false, some "OTP has expired"⟩
  | ValidateOutcome.InternalError => ⟨500, false, some "Internal server error"⟩

/-- The `validateOTP` handler body after request binding: look the code
up with `GetOTP`, dispatch `ErrOTPExpired`/`ErrOTPNotFound`, compare the
stored code with the submitted one by string inequality, and on a match
delete the entry (a non-`nil` delete error is only logged) and answer
`Valid`. The pair is (store after the call, outcome). -/
def validateOTP (s : Store) (now : Nat) (phone otp : String) :
    Store × ValidateOutcome :=
  match GetOTP s now phone with
  | (s1, Except.error OTPError.Expired) => (s1, ValidateOutcome.Expired)
  | (s1, Except.error OTPError.NotFound) => (s1, ValidateOutcome.NotFound)
  | (s1, Except.ok storedOTP) =>
      if storedOTP ≠ otp then
        (s1, ValidateOutcome.Incorrect)
      else
        ((DeleteOTP s1 phone).1, ValidateOutcome.Valid)

/-- The `generateOTP` handler body after request binding: generate the
code, send it through Twilio (`deliveryFails` tells whether
`client.Api.CreateMessage` returned an error), and only on successful
delivery call `SetOTP`. The result is (store after the call, HTTP
status). -/
def generateOTPHandler (s : Store) (now : Nat) (phone otp : String)
    (deliveryFails : Bool) : Store × Nat :=
  if deliveryFails then
    (s, 500)
  else
    match SetOTP s now phone otp with
    | (s1, some _) => (s1, 500)
    | (s1, none) => (s1, 200)

/-- `binary.BigEndian.Uint16` of two bytes. -/
def uint16BE (b0 b1 : Nat) : Nat := b0 * 256 + b1

/-- The crypto path's value mapping: `num := Uint16(b) % 9000`, returned
code `num + 1000`. -/
def cryptoCode (x : Nat) : Nat := x % 9000 + 1000

/-- Base-10 digits of `n`, least-significant first (`[]` for `0`); the
first argument is structural fuel, adequate whenever `n ≤ fuel`. -/
def digitsAuxF : Nat → Nat → List Nat
  | 0, _ => []
  | fuel + 1, n => if n = 0 then [] else n % 10 :: digitsAuxF fuel (n / 10)

/-- `strconv.Itoa` for a non-negative value: the base-10 digits,
most-significant first. -/
def itoa (n : Nat) : String :=
  if n = 0 then "0"
  else ((digitsAuxF n n).reverse.map Nat.digitChar).asString

/-- `generateSecureOTP`: on a successful `crypto/rand.Read` of bytes
`(b0, b1)` return `Itoa (Uint16BE b0 b1 % 9000 + 1000)`; if the read
fails, fall back to `Itoa (1000 + fallbackRand.Intn 9000)` where
`fallbackVal` is the `Intn 9000` draw. -/
def generateSecureOTP (cryptoBytes : Option (Nat × Nat))
    (fallbackVal : Nat) : String :=
  match cryptoBytes with
  | none => itoa (1000 + fallbackVal)
  | some (b0, b1) => itoa (cryptoCode (uint16BE b0 b1))

/-- Number of 2-byte inputs (among the `2^16` possible) that the crypto
path maps to a given code. -/
def preimageCount (code : Nat) : Nat :=
  ((Finset.range 65536).filter (fun x => cryptoCode x = code)).card

/-- A concrete one-entry store used in witnesses: `"p1"` holds code
`"1234"` expiring at instant `100`. -/
def exStore : Store :=
  fun p => if p = "p1" then some ⟨"1234", 100⟩ else none

/-! ### Helper lemmas -/

lemma digitsAuxF_eq_digits (fuel : Nat) :
    ∀ n, n ≤ fuel → digitsAuxF fuel n = Nat.digits 10 n := by
  induction fuel with
  | zero =>
      intro n hn
      have : n = 0 := by omega
      subst this
      simp [digitsAuxF]
  | succ f ih =>
      intro n hn
      by_cases h0 : n = 0
      · subst h0; simp [digitsAuxF]
      · have hdiv : n / 10 ≤ f := by omega
        rw [digitsAuxF, if_neg h0, ih (n / 10) hdiv,
          Nat.digits_def' (by norm_num : (1:Nat) < 10) (Nat.pos_of_ne_zero h0)]

lemma digitChar_isDigit (d : Nat) (hd : d < 10) : (Nat.digitChar d).isDigit := by
  interval_cases d <;> decide

lemma itoa_four_digits (n : Nat) (h1 : 1000 ≤ n) (h2 : n ≤ 9999) :
    (itoa n).length = 4 ∧ ∀ c ∈ (itoa n).toList, c.isDigit := by
  unfold itoa
  rw [if_neg (by omega : ¬ n = 0), digitsAuxF_eq_digits n n le_rfl]
  have hlog : Nat.log 10 n = 3 :=
    Nat.log_eq_of_pow_le_of_lt_pow (by norm_num; omega) (by norm_num; omega)
  have hlen : (Nat.digits 10 n).length = 4 := by
    rw [Nat.digits_len 10 n (by norm_num) (by omega), hlog]
  constructor
  · simp [List.asString, String.length, hlen]
  · intro c hc
    simp only [List.asString] at hc
    have hc2 : c ∈ (Nat.digits 10 n).reverse.map Nat.digitChar := hc
    rw [List.mem_map] at hc2
    obtain ⟨d, hd, rfl⟩ := hc2
    rw [List.mem_reverse] at hd
    exact digitChar_isDigit d (Nat.digits_lt_base (by norm_num) hd)

lemma filter_mod_eq_image (r : Nat) (hr : r < 9000) :
    (Finset.range 65536).filter (fun x => x % 9000 = r) =
      (Finset.range (if r < 2536 then 8 else 7)).image (fun k => 9000 * k + r) := by
  ext x
  simp only [Finset.mem_filter, Finset.mem_range, Finset.mem_image]
  constructor
  · rintro ⟨hx, hmod⟩
    refine ⟨x / 9000, ?_, by omega⟩
    split <;> omega
  · rintro ⟨k, hk, rfl⟩
    refine ⟨?_, by omega⟩
    split at hk <;> omega

lemma preimageCount_formula (code : Nat) (h1 : 1000 ≤ code) (h2 : code ≤ 9999) :
    preimageCount code = if code < 3536 then 8 else 7 := by
  have hr : code - 1000 < 9000 := by omega
  have hinj : Function.Injective (fun k => 9000 * k + (code - 1000)) := by
    intro a b hab
    simp only at hab
    omega
  have hfilter : (Finset.range 65536).filter (fun x => cryptoCode x = code) =
      (Finset.range 65536).filter (fun x => x % 9000 = code - 1000) := by
    apply Finset.filter_congr
    intro x _
    simp only [cryptoCode, eq_iff_iff]
    omega
  unfold preimageCount
  rw [hfilter, filter_mod_eq_image _ hr, Finset.card_image_of_injective _ hinj,
    Finset.card_range]
  split <;> split <;> omega

/-! ### Claim theorems -/

/-- C1 counterexample: with the entry for `"p1"` expiring at instant
`100`, a `GetOTP` at exactly `now = expiresAt = 100` returns the stored
code `"1234"` as valid and leaves the entry in place, because the code
tests `time.Now().After(expiresAt)` (strict); the claim says such a call
must delete the entry and fail with `Expired`. -/
theorem C1_boundary_counterexample :
    (100:Nat) ≥ 100 ∧
    (GetOTP exStore 100 "p1").2 = Except.ok "1234" ∧
    (GetOTP exStore 100 "p1").1 "p1" = some ⟨"1234", 100⟩ :=
  ⟨le_refl 100, rfl, rfl⟩

/-- C1 (amended): for every identifier whose entry is present, a
`GetOTP` at any `now` strictly greater than `expiresAt` deletes the
entry as a side effect and fails with `Expired`, and an immediately
repeated `GetOTP` for the same identifier (at any time) fails with
`NotFound`. -/
theorem C1_expired_get_deletes (s : Store) (now now2 : Nat)
    (phone : String) (e : otpEntry) (hin : s phone = some e)
    (hexp : now > e.expiresAt) :
    (GetOTP s now phone).2 = Except.error OTPError.Expired ∧
    (GetOTP s now phone).1 phone = none ∧
    (GetOTP ((GetOTP s now phone).1) now2 phone).2 =
      Except.error OTPError.NotFound := by
  simp [GetOTP, hin, hexp]

/-- C1 witness: instantiation at `exStore`, `now = 101`. -/
theorem C1_expired_get_deletes_witness :
    (GetOTP exStore 101 "p1").2 = Except.error OTPError.Expired ∧
    (GetOTP exStore 101 "p1").1 "p1" = none ∧
    (GetOTP ((GetOTP exStore 101 "p1").1) 102 "p1").2 =
      Except.error OTPError.NotFound :=
  C1_expired_get_deletes exStore 101 102 "p1" ⟨"1234", 100⟩ rfl (by decide)

/-- C2 counterexample: the crypto-path mapping
`num = BigEndian.Uint16(b) % 9000 + 1000` is not uniform over the
`2^16` two-byte inputs: code `1000` has `8` preimages while code `9999`
has only `7`. -/
theorem C2_nonuniform_counterexample :
    preimageCount 1000 = 8 ∧ preimageCount 9999 = 7 ∧
    preimageCount 1000 ≠ preimageCount 9999 := by
  have h1 := preimageCount_formula 1000 (by norm_num) (by norm_num)
  have h2 := preimageCount_formula 9999 (by norm_num) (by norm_num)
  norm_num at h1 h2
  exact ⟨h1, h2, by omega⟩

/-- C2 (amended): the crypto path is nearly uniform but carries the
classic modulo bias: since `2^16 = 7 * 9000 + 2536`, each code in
`[1000, 3535]` has exactly `8` preimages among the `2^16` two-byte
inputs and each code in `[3536, 9999]` exactly `7`. -/
theorem C2_crypto_path_preimages (code : Nat) (h1 : 1000 ≤ code)
    (h2 : code ≤ 9999) :
    preimageCount code = if code < 3536 then 8 else 7 :=
  preimageCount_formula code h1 h2

/-- C2 witness: instantiation at codes `3535`. -/
theorem C2_crypto_path_preimages_witness :
    (1000:Nat) ≤ 3535 ∧ (3535:Nat) ≤ 9999 ∧ preimageCount 3535 = 8 := by
  have h := C2_crypto_path_preimages 3535 (by norm_num) (by norm_num)
  norm_num at h
  exact ⟨by norm_num, by norm_num, h⟩

/-- C3: validating the correct code of a live entry yields `Valid` and
deletes the entry, so an immediately repeated validation with the same
identifier and code (at any time) fails with `NotFound`. -/
theorem C3_valid_is_single_use (s : Store) (now now2 : Nat)
    (phone : String) (e : otpEntry) (hin : s phone = some e)
    (hlive : ¬ now > e.expiresAt) :
    (validateOTP s now phone e.otp).2 = ValidateOutcome.Valid ∧
    (validateOTP s now phone e.otp).1 phone = none ∧
    (validateOTP ((validateOTP s now phone e.otp).1) now2 phone e.otp).2 =
      ValidateOutcome.NotFound := by
  simp [validateOTP, GetOTP, DeleteOTP, hin, hlive]

/-- C3 witness: instantiation at `exStore`, `now = 50`. -/
theorem C3_valid_is_single_use_witness :
    (validateOTP exStore 50 "p1" "1234").2 = ValidateOutcome.Valid ∧
    (validateOTP exStore 50 "p1" "1234").1 "p1" = none ∧
    (validateOTP ((validateOTP exStore 50 "p1" "1234").1) 60 "p1" "1234").2 =
      ValidateOutcome.NotFound :=
  C3_valid_is_single_use exStore 50 60 "p1" ⟨"1234", 100⟩ rfl (by decide)

/-- C4: validating a live entry with a submitted code that differs from
the stored one (exact string inequality) yields `Incorrect` and returns
the store unchanged, so a later validation with the correct code before
expiry still yields `Valid`. -/
theorem C4_incorrect_leaves_entry (s : Store) (now now2 : Nat)
    (phone otp : String) (e : otpEntry) (hin : s phone = some e)
    (hlive : ¬ now > e.expiresAt) (hlive2 : ¬ now2 > e.expiresAt)
    (hne : e.otp ≠ otp) :
    validateOTP s now phone otp = (s, ValidateOutcome.Incorrect) ∧
    (validateOTP ((validateOTP s now phone otp).1) now2 phone e.otp).2 =
      ValidateOutcome.Valid := by
  constructor
  · simp [validateOTP, GetOTP, hin, hlive, hne]
  · simp [validateOTP, GetOTP, DeleteOTP, hin, hlive, hlive2, hne]

/-- C4 witness: instantiation at `exStore`, wrong code `"9999"`. -/
theorem C4_incorrect_leaves_entry_witness :
    validateOTP exStore 50 "p1" "9999" = (exStore, ValidateOutcome.Incorrect) ∧
    (validateOTP ((validateOTP exStore 50 "p1" "9999").1) 60 "p1" "1234").2 =
      ValidateOutcome.Valid :=
  C4_incorrect_leaves_entry exStore 50 60 "p1" "9999" ⟨"1234", 100⟩ rfl
    (by decide) (by decide) (by decide)

/-- C5: in the `generateOTP` handler the Twilio send precedes the store
write; when delivery fails the handler answers `500` and returns with
the store exactly as it was — `SetOTP` is never reached, so no code is
committed for the identifier. -/
theorem C5_delivery_failure_no_commit (s : Store) (now : Nat)
    (phone otp : String) :
    generateOTPHandler s now phone otp true = (s, 500) := rfl

/-- C6: every code the generator returns — crypto path or `math/rand`
fallback alike — is the decimal numeral of an integer in
`[1000, 9999]`, four ASCII digits long; a crypto-source failure
(`cryptoBytes = none`) still produces such a string rather than an
error. -/
theorem C6_generator_always_four_digits (cryptoBytes : Option (Nat × Nat))
    (fallbackVal : Nat) (hfb : fallbackVal < 9000) :
    ∃ n, 1000 ≤ n ∧ n ≤ 9999 ∧
      generateSecureOTP cryptoBytes fallbackVal = itoa n ∧
      (generateSecureOTP cryptoBytes fallbackVal).length = 4 ∧
      ∀ c ∈ (generateSecureOTP cryptoBytes fallbackVal).toList,
        c.isDigit := by
  cases cryptoBytes with
  | none =>
      have h1 : (1000:Nat) ≤ 1000 + fallbackVal := by omega
      have h2 : 1000 + fallbackVal ≤ 9999 := by omega
      obtain ⟨hlen, hdig⟩ := itoa_four_digits (1000 + fallbackVal) h1 h2
      exact ⟨1000 + fallbackVal, h1, h2, rfl, hlen, hdig⟩
  | some b =>
      obtain ⟨b0, b1⟩ := b
      have h1 : 1000 ≤ cryptoCode (uint16BE b0 b1) := by
        simp [cryptoCode]
      have h2 : cryptoCode (uint16BE b0 b1) ≤ 9999 := by
        have := Nat.mod_lt (uint16BE b0 b1) (by norm_num : (0:Nat) < 9000)
        simp only [cryptoCode]
        omega
      obtain ⟨hlen, hdig⟩ := itoa_four_digits (cryptoCode (uint16BE b0 b1)) h1 h2
      exact ⟨cryptoCode (uint16BE b0 b1), h1, h2, rfl, hlen, hdig⟩

/-- C6 witness: instantiation at a successful crypto read of bytes
`(255, 255)` (and, vacuously for that path, fallback value `0`). -/
theorem C6_generator_always_four_digits_witness :
    ∃ n, 1000 ≤ n ∧ n ≤ 9999 ∧
      generateSecureOTP (some (255, 255)) 0 = itoa n ∧
      (generateSecureOTP (some (255, 255)) 0).length = 4 ∧
      ∀ c ∈ (generateSecureOTP (some (255, 255)) 0).toList, c.isDigit :=
  C6_generator_always_four_digits (some (255, 255)) 0 (by norm_num)

/-- C7: `SetOTP` always succeeds (returns `nil`), a `GetOTP` before the
entry expires returns the code just stored, and a second `SetOTP` for
the same identifier overwrites the first so that `GetOTP` returns the
newer code only. -/
theorem C7_set_get_overwrite (s : Store) (now now2 : Nat)
    (i c1 c2 : String) (hfresh : ¬ now2 > now + otpExpiration) :
    (SetOTP s now i c1).2 = none ∧
    (GetOTP (SetOTP s now i c1).1 now2 i).2 = Except.ok c1 ∧
    (GetOTP (SetOTP (SetOTP s now i c1).1 now i c2).1 now2 i).2 =
      Except.ok c2 := by
  refine ⟨rfl, ?_, ?_⟩ <;> simp [SetOTP, GetOTP, hfresh]

/-- C7 witness: instantiation at the empty store, identifier `"p2"`. -/
theorem C7_set_get_overwrite_witness :
    (SetOTP emptyStore 0 "p2" "1111").2 = none ∧
    (GetOTP (SetOTP emptyStore 0 "p2" "1111").1 7 "p2").2 =
      Except.ok "1111" ∧
    (GetOTP (SetOTP (SetOTP emptyStore 0 "p2" "1111").1 0 "p2" "2222").1
      7 "p2").2 = Except.ok "2222" :=
  C7_set_get_overwrite emptyStore 0 7 "p2" "1111" "2222" (by decide)

/-- C8: the `validateOTP` response mapping is injective on the five
outcomes: two different outcomes never produce the same
(status, body) response, so callers can mechanically tell them apart. -/
theorem C8_responses_distinct (o1 o2 : ValidateOutcome)
    (h : responseFor o1 = responseFor o2) : o1 = o2 := by
  cases o1 <;> cases o2 <;> simp_all [responseFor]

/-- C8 witness: instantiation at `Valid`. -/
theorem C8_responses_distinct_witness :
    ValidateOutcome.Valid = ValidateOutcome.Valid :=
  C8_responses_distinct ValidateOutcome.Valid ValidateOutcome.Valid rfl

/-- C9: one pass of the background sweep removes an entry exactly when
its `expiresAt` has passed at the sweep's observation time (`now`
strictly after it, Go `After`), independent of any `GetOTP` history, and
otherwise keeps the entry — key, code and expiry — unchanged; absent
keys stay absent. -/
theorem C9_cleanup_pass (s : Store) (now : Nat) (phone : String)
    (e : otpEntry) (hin : s phone = some e) :
    cleanupPass s now phone =
      (if now > e.expiresAt then none else some e) ∧
    ∀ q, s q = none → cleanupPass s now q = none := by
  constructor
  · simp [cleanupPass, hin]
  · intro q hq
    simp [cleanupPass, hq]

/-- C9 witness: instantiation at `exStore` with `now = 101`, where the
single entry has expired. -/
theorem C9_cleanup_pass_witness :
    cleanupPass exStore 101 "p1" =
      (if 101 > (100:Nat) then none else some ⟨"1234", 100⟩) ∧
    ∀ q, exStore q = none → cleanupPass exStore 101 q = none :=
  C9_cleanup_pass exStore 101 "p1" ⟨"1234", 100⟩ rfl

/-- C10: `SetOTP` and `DeleteOTP` return `nil` on every input and every
store state, so the delete-failure branch of `validateOTP` is
unreachable and a submitted code matching a live entry always reaches
the `Valid` outcome. -/
theorem C10_nil_errors_valid_reachable (s : Store) (now : Nat)
    (phone otp c : String) (e : otpEntry) (hin : s phone = some e)
    (hlive : ¬ now > e.expiresAt) (hmatch : e.otp = otp) :
    (SetOTP s now phone c).2 = none ∧
    (DeleteOTP s phone).2 = none ∧
    (validateOTP s now phone otp).2 = ValidateOutcome.Valid := by
  subst hmatch
  exact ⟨rfl, rfl, by simp [validateOTP, GetOTP, hin, hlive]⟩

/-- C10 witness: instantiation at `exStore`, `now = 50`. -/
theorem C10_nil_errors_valid_reachable_witness :
    (SetOTP exStore 50 "p1" "5555").2 = none ∧
    (DeleteOTP exStore "p1").2 = none ∧
    (validateOTP exStore 50 "p1" "1234").2 = ValidateOutcome.Valid :=
  C10_nil_errors_valid_reachable exStore 50 "p1" "1234" "5555"
    ⟨"1234", 100⟩ rfl (by decide) rfl
